import Mathlib

/-!
Verification development for the DataPost-iPhone screenshot tooling.

Two batch scripts are modelled by a shallow embedding:

* `resize_screenshots.py` — the image normalizer.  For each file of a fixed
  list it loads the image, scales it to fit the fixed 2048 x 2732 target
  canvas while preserving the aspect ratio, and pastes it centered onto a
  fresh canvas of exactly the target size.  Python float arithmetic on the
  aspect ratios is modelled by exact rational arithmetic over `ℚ`; the
  values fed to Python `int(...)` are nonnegative here, where truncation
  toward zero agrees with `Int.floor`, so `int(x)` is modelled as
  `⌊x⌋.toNat`; Python `//` by the positive literal 2 is floor division,
  which agrees with `Int` division (`Int.ediv`).

* `generate_screenshots.py` — the mockup renderer.  Each screen layout
  function emits a fixed sequence of drawing primitives at coordinates
  built from literal constants, the canvas size, the device scale factor
  and measured text extents.  The two supported scale factors are the
  floats 3.0 and 2.0; for the integer layout constants of the source,
  `int(c * scale)` is exact and equals `c * scale` over `ℤ`, so the scale
  factor is modelled as an integer.  Text measurement (`draw.textbbox`) is
  an external font-dependent oracle and is modelled as an arbitrary
  function returning nonnegative extents.  Draw-call colors, fonts and
  stroke widths do not contribute coordinates and are not recorded.
-/

namespace DataPost

/-! ## Image normalizer: `resize_screenshots.py` -/

/-- `target_size = (2048, 2732)`: App Store canvas for the 13 inch iPad. -/
def target_size : ℕ × ℕ := (2048, 2732)

/-- The fixed input list `files` of the normalizer. -/
def files : List String :=
  ["screenshot_1.png", "screenshot_2.png", "screenshot_3.png", "screenshot_4.png"]

/-- Everything the letterbox loop body computes for one source image:
the resized content size, the centering paste offsets, and the size of the
saved output canvas. -/
structure LetterboxResult where
  newW : ℕ
  newH : ℕ
  pasteX : ℤ
  pasteY : ℤ
  outW : ℕ
  outH : ℕ

/-- One iteration of the letterbox loop of `resize_screenshots.py`
(lines 20-45), for a source image of width `w` and height `h`:

    img_ratio = img.width / img.height
    target_ratio = target_size[0] / target_size[1]
    if img_ratio > target_ratio:
        new_width = target_size[0]; new_height = int(new_width / img_ratio)
    else:
        new_height = target_size[1]; new_width = int(new_height * img_ratio)
    paste_x = (target_size[0] - new_width) // 2
    paste_y = (target_size[1] - new_height) // 2

followed by `Image.new('RGB', target_size, ...)` for the output canvas. -/
def letterbox (w h : ℕ) : LetterboxResult :=
  let img_ratio : ℚ := (w : ℚ) / (h : ℚ)
  let target_ratio : ℚ := (target_size.1 : ℚ) / (target_size.2 : ℚ)
  let wh : ℕ × ℕ :=
    if img_ratio > target_ratio then
      (target_size.1, (⌊(target_size.1 : ℚ) / img_ratio⌋).toNat)
    else
      ((⌊(target_size.2 : ℚ) * img_ratio⌋).toNat, target_size.2)
  { newW := wh.1
    newH := wh.2
    pasteX := ((target_size.1 : ℤ) - (wh.1 : ℤ)) / 2
    pasteY := ((target_size.2 : ℤ) - (wh.2 : ℤ)) / 2
    outW := target_size.1
    outH := target_size.2 }

/-- The filesystem as the normalizer sees it: `read name` returns the pixel
size of the image stored under `name`, or `none` when `Image.open` raises
(missing file, decode error). -/
structure FS where
  read : String → Option (ℕ × ℕ)

/-- The body of the per-file `try` block: open the image and letterbox it.
A raised exception becomes `Except.error`; opening raises for a missing or
unreadable file, and `img.width / img.height` raises `ZeroDivisionError`
when the stored height is zero. -/
def process_file (fs : FS) (name : String) : Except String LetterboxResult :=
  match fs.read name with
  | none => .error "cannot open"
  | some (w, h) => if h = 0 then .error "ZeroDivisionError" else .ok (letterbox w h)

/-- The batch loop `for filename in files`: every listed file is processed;
the `except` clause only records (prints) a failure and the loop continues
with the next file. -/
def run_batch (fs : FS) : List (String × Except String LetterboxResult) :=
  files.map fun name => (name, process_file fs name)

/-- A filesystem on which every listed file opens as a 512 x 683 image. -/
def fsAll : FS := ⟨fun _ => some (512, 683)⟩

/-- A filesystem on which the first listed file is missing and every other
file opens as a 512 x 683 image. -/
def fsMissing : FS :=
  ⟨fun name => if name = "screenshot_1.png" then none else some (512, 683)⟩

/-! ## Mockup renderer: `generate_screenshots.py`

The two supported device profiles are `(1290, 2796, scale 3.0, iphone)` and
`(2048, 2732, scale 2.0, ipad)`.  Both scale factors are integral, and the
source only ever multiplies them by integer layout constants before
truncating with `int(...)`, so `int(c * scale)` equals `c * scale` exactly
and the scale factor is embedded as an integer.  Python `//` (floor
division) on these nonnegative quantities, always by a positive divisor, is
`Int` division.  The single fractional float, the progress fraction `0.65`,
is embedded as the exact rational `13/20` and its `int(...)` as `pyInt`. -/

/-- Python `int(x)` on a float `x`, modelled over exact rationals:
truncation toward zero. -/
def pyInt (q : ℚ) : ℤ := q.num.tdiv q.den

/-- A drawing primitive issued to the 2D library, recorded with the
coordinates passed to the draw call.  Colors, fonts and stroke widths carry
no coordinates and are not recorded. -/
inductive Op where
  | rect (x0 y0 x1 y1 : ℤ)
  | rrect (x0 y0 x1 y1 radius : ℤ)
  | ellipse (x0 y0 x1 y1 : ℤ)
  | line (x0 y0 x1 y1 : ℤ)
  | text (x y : ℤ) (s : String)
deriving DecidableEq

/-- The text measurement oracle: `width s size bold` and `height s size bold`
stand for `bbox[2] - bbox[0]` and `bbox[3] - bbox[1]` of `draw.textbbox`
for string `s` in the font of the given pixel size and weight.  PIL box
extents are nonnegative, hence the `ℕ` codomain. -/
structure TextMeasure where
  width : String → ℤ → Bool → ℕ
  height : String → ℤ → Bool → ℕ

/-- The degenerate text measurement oracle reporting zero extents. -/
def tmZero : TextMeasure := ⟨fun _ _ _ => 0, fun _ _ _ => 0⟩

/-- The x position `base + (span - tw) // 2` used by the renderer to center
a label of measured width `tw` in a container of width `span` starting at
`base` (`draw_nav_bar`, `draw_action_buttons`, stat and rank tiles). -/
def centerIn (base span tw : ℤ) : ℤ := base + (span - tw) / 2

/-- The x position `cx - tw // 2` used by the renderer to center a label of
measured width `tw` on a midpoint `cx` (tab labels, profile texts). -/
def centerAt (cx tw : ℤ) : ℤ := cx - tw / 2

/-- `tab_w = w // len(tabs)` in `draw_tab_bar` (three tabs). -/
def tab_w (w : ℤ) : ℤ := w / 3

/-- Whether a recorded drawing primitive stays inside the canvas bounds:
no x coordinate exceeds the canvas width `W` and no y coordinate exceeds
the canvas height `H`. -/
def opInBounds (W H : ℤ) : Op → Prop
  | .rect x0 y0 x1 y1 => x0 ≤ W ∧ x1 ≤ W ∧ y0 ≤ H ∧ y1 ≤ H
  | .rrect x0 y0 x1 y1 _ => x0 ≤ W ∧ x1 ≤ W ∧ y0 ≤ H ∧ y1 ≤ H
  | .ellipse x0 y0 x1 y1 => x0 ≤ W ∧ x1 ≤ W ∧ y0 ≤ H ∧ y1 ≤ H
  | .line x0 y0 x1 y1 => x0 ≤ W ∧ x1 ≤ W ∧ y0 ≤ H ∧ y1 ≤ H
  | .text x y _ => x ≤ W ∧ y ≤ H

/-- All primitives of a recorded draw sequence stay inside the canvas. -/
def ops_bounded (W H : ℤ) (L : List Op) : Prop := ∀ op ∈ L, opInBounds W H op

/-- `draw_status_bar`: clock text and battery icon. -/
def draw_status_bar (w scale : ℤ) : List Op :=
  let y := 12 * scale
  let bx := w - 40 * scale
  let byy := y + 2 * scale
  let bw := 25 * scale
  let bh := 12 * scale
  [Op.text (32 * scale) y "9:41",
   Op.rrect bx byy (bx + bw) (byy + bh) (2 * scale),
   Op.rect (bx + 2 * scale) (byy + 2 * scale) (bx + bw - 2 * scale) (byy + bh - 2 * scale)]

/-- `draw_nav_bar`: background and centered title; returns the recorded ops
and the y cursor after the bar. -/
def draw_nav_bar (w scale : ℤ) (tm : TextMeasure) (title : String) (y0 : ℤ) :
    List Op × ℤ :=
  let navH := 44 * scale
  ([Op.rect 0 y0 w (y0 + navH),
    Op.text (centerIn 0 w (tm.width title (17 * scale) true)) (y0 + 12 * scale) title],
   y0 + navH)

/-- `draw_large_title`. -/
def draw_large_title (w scale : ℤ) (title : String) (y0 : ℤ) : List Op × ℤ :=
  ([Op.text (20 * scale) (y0 + 8 * scale) title], y0 + 52 * scale)

/-- One tab of `draw_tab_bar`: icon circle and centered label (`active_tab`
only selects colors and is not recorded). -/
def tab_ops (w y scale : ℤ) (tm : TextMeasure) (i : ℤ) (label : String) : List Op :=
  let cx := tab_w w * i + tab_w w / 2
  let circleR := 12 * scale
  let circleY := y + 10 * scale
  [Op.ellipse (cx - circleR) circleY (cx + circleR) (circleY + circleR * 2),
   Op.text (centerAt cx (tm.width label (10 * scale) false)) (y + 42 * scale) label]

/-- `draw_tab_bar`: bar background, separator line and the three tabs. -/
def draw_tab_bar (w h scale : ℤ) (tm : TextMeasure) : List Op :=
  let tabH := 83 * scale
  let y := h - tabH
  [Op.rect 0 y w h, Op.line 0 y w y] ++
    tab_ops w y scale tm 0 "Status" ++ tab_ops w y scale tm 1 "Profile" ++
    tab_ops w y scale tm 2 "Settings"

/-- `draw_connection_card`: card, WiFi circle, status and subtitle texts. -/
def draw_connection_card (w scale y : ℤ) (connected : Bool) : List Op × ℤ :=
  let cardH := 80 * scale
  let mx := 16 * scale
  let iconX := mx + 16 * scale
  let iconY := y + 20 * scale
  let iconR := 18 * scale
  let tx := iconX + iconR * 2 + 16 * scale
  ([Op.rrect mx y (w - mx) (y + cardH) (12 * scale),
    Op.ellipse iconX iconY (iconX + iconR * 2) (iconY + iconR * 2),
    Op.text tx (y + 18 * scale)
      (if connected then "Connected to RACHEL" else "Not Connected"),
    Op.text tx (y + 42 * scale)
      (if connected then "RACHEL-Demo" else "Connect to a RACHEL WiFi network")],
   y + cardH + 16 * scale)

/-- `draw_transfer_card`: card, icon circle, title, and either a progress
bar with a status text or a pending-count text. -/
def draw_transfer_card (w scale y : ℤ) (label : String) (count : ℕ)
    (isActive : Bool) (progress : ℚ) : List Op × ℤ :=
  let cardH := 70 * scale
  let mx := 16 * scale
  let ix := mx + 14 * scale
  let iy := y + 16 * scale
  let ir := 16 * scale
  let tx := ix + ir * 2 + 14 * scale
  let tail :=
    if isActive then
      let barY := y + 38 * scale
      let barW := w - mx * 2 - (tx - mx) - 14 * scale
      let barH := 6 * scale
      [Op.rrect tx barY (tx + barW) (barY + barH) (3 * scale)] ++
        (if 0 < progress then
          [Op.rrect tx barY (tx + pyInt ((barW : ℚ) * progress)) (barY + barH) (3 * scale)]
         else []) ++
        [Op.text tx (barY + 10 * scale) "Syncing content..."]
    else
      [Op.text tx (y + 36 * scale) (toString count ++ " files pending")]
  ([Op.rrect mx y (w - mx) (y + cardH) (8 * scale),
    Op.ellipse ix iy (ix + ir * 2) (iy + ir * 2),
    Op.text tx (y + 12 * scale) label] ++ tail,
   y + cardH + 10 * scale)

/-- `draw_action_buttons`: the full-width View Bundles button and the
side-by-side Sync Now and Scan buttons, each with a centered label. -/
def draw_action_buttons (w scale : ℤ) (tm : TextMeasure) (y : ℤ) : List Op × ℤ :=
  let mx := 16 * scale
  let btnH := 50 * scale
  let y2 := y + btnH + 10 * scale
  let half := (w - mx * 2 - 10 * scale) / 2
  let x2 := mx + half + 10 * scale
  ([Op.rrect mx y (w - mx) (y + btnH) (10 * scale),
    Op.text (centerIn 0 w (tm.width "View Bundles" (16 * scale) true)) (y + 14 * scale)
      "View Bundles",
    Op.rrect mx y2 (mx + half) (y2 + btnH) (10 * scale),
    Op.text (centerIn mx half (tm.width "Sync Now" (16 * scale) true)) (y2 + 14 * scale)
      "Sync Now",
    Op.rrect x2 y2 (x2 + half) (y2 + btnH) (10 * scale),
    Op.text (centerIn x2 half (tm.width "Scan" (16 * scale) true)) (y2 + 14 * scale)
      "Scan"],
   y2 + btnH + 16 * scale)

/-- `draw_form_row`: row background, separator line, label, and either a
toggle (track and knob), a right-aligned value text, or nothing
(`is_destructive` only selects the label color; an empty value string
counts as no value, matching Python truthiness). -/
def draw_form_row (w scale y : ℤ) (tm : TextMeasure) (label : String)
    (value : Option String) (isToggle toggleOn : Bool) : List Op × ℤ :=
  let mx := 16 * scale
  let rowH := 44 * scale
  let tail :=
    if isToggle then
      let tx := w - mx - 51 * scale
      let ty := y + 8 * scale
      let tw := 51 * scale
      let th := 31 * scale
      let knobR := 13 * scale
      let kx := if toggleOn then tx + tw - knobR - 2 * scale else tx + 2 * scale
      [Op.rrect tx ty (tx + tw) (ty + th) (15 * scale),
       Op.ellipse kx (ty + 2 * scale) (kx + knobR * 2) (ty + 2 * scale + knobR * 2)]
    else
      match value with
      | some v =>
        [Op.text (w - mx - 16 * scale - (tm.width v (15 * scale) false : ℤ))
           (y + 13 * scale) v]
      | none => []
  ([Op.rect mx y (w - mx) (y + rowH),
    Op.line (mx + 16 * scale) (y + rowH) (w - mx) (y + rowH),
    Op.text (mx + 16 * scale) (y + 12 * scale) label] ++ tail,
   y + rowH)

/-- `draw_form_section_header`. -/
def draw_form_section_header (w scale y : ℤ) (title : String) : List Op × ℤ :=
  ([Op.text (32 * scale) (y + 8 * scale) title], y + 32 * scale)

/-- `generate_status_screen`, recorded as its sequence of draw calls. -/
def generate_status_screen (w h scale : ℤ) (tm : TextMeasure) : List Op :=
  let p1 := draw_nav_bar w scale tm "" (59 * scale)
  let p2 := draw_large_title w scale "Status" p1.2
  let y3 := p2.2 + 8 * scale
  let p3 := draw_connection_card w scale y3 true
  let y5 := p3.2 + 28 * scale
  let p5 := draw_transfer_card w scale y5 "Downloads" 3 true (13 / 20)
  let p6 := draw_transfer_card w scale p5.2 "Uploads" 1 false 0
  let btnY := h - 83 * scale - 140 * scale
  let p7 := draw_action_buttons w scale tm btnY
  draw_status_bar w scale ++ p1.1 ++ p2.1 ++ p3.1 ++
    [Op.text (20 * scale) p3.2 "Transfer Status"] ++ p5.1 ++ p6.1 ++ p7.1 ++
    draw_tab_bar w h scale tm

/-- `generate_settings_screen`, recorded as its sequence of draw calls. -/
def generate_settings_screen (w h scale : ℤ) (tm : TextMeasure) : List Op :=
  let mx := 16 * scale
  let p1 := draw_nav_bar w scale tm "" (59 * scale)
  let p2 := draw_large_title w scale "Settings" p1.2
  let y3 := p2.2 + 4 * scale
  let s1 := draw_form_section_header w scale y3 "Sync Settings"
  let r1 := draw_form_row w scale s1.2 tm "Auto-Sync" none true true
  let r2 := draw_form_row w scale r1.2 tm "Sync on WiFi Only" none true true
  let r3 := draw_form_row w scale r2.2 tm "Upload Quality" (some "Original") false true
  let y4 := r3.2 + 8 * scale
  let s2 := draw_form_section_header w scale y4 "Notifications"
  let r4 := draw_form_row w scale s2.2 tm "Push Notifications" none true true
  let y5 := r4.2 + 8 * scale
  let s3 := draw_form_section_header w scale y5 "Storage"
  let r5 := draw_form_row w scale s3.2 tm "Downloaded Bundles" (some "2.4 GB") false true
  let r6 := draw_form_row w scale r5.2 tm "Pending Uploads" (some "156 MB") false true
  let r7 := draw_form_row w scale r6.2 tm "Clear Local Data" none false true
  let y6 := r7.2 + 8 * scale
  let s4 := draw_form_section_header w scale y6 "About"
  let r8 := draw_form_row w scale s4.2 tm "Version" (some "1.1 (3)") false true
  let r9 := draw_form_row w scale r8.2 tm "World Possible Website" none false true
  let r10 := draw_form_row w scale r9.2 tm "Privacy Policy" none false true
  let r11 := draw_form_row w scale r10.2 tm "Support" none false true
  let y7 := r11.2 + 8 * scale
  let s5 := draw_form_section_header w scale y7 "Account"
  let r12 := draw_form_row w scale s5.2 tm "Sign Out" none false true
  let r13 := draw_form_row w scale r12.2 tm "Delete Account" none false true
  draw_status_bar w scale ++ p1.1 ++ p2.1 ++ s1.1 ++
    [Op.rrect mx s1.2 (w - mx) (s1.2 + 4 * scale) (10 * scale)] ++
    r1.1 ++ r2.1 ++ r3.1 ++ s2.1 ++ r4.1 ++ s3.1 ++ r5.1 ++ r6.1 ++ r7.1 ++
    s4.1 ++ r8.1 ++ r9.1 ++ r10.1 ++ r11.1 ++ s5.1 ++ r12.1 ++ r13.1 ++
    [Op.text (32 * scale) (r13.2 + 8 * scale) "Signed in as jeremy@worldpossible.org"] ++
    draw_tab_bar w h scale tm

/-- One stat tile of `generate_profile_screen` (tinted card, icon circle,
centered value, centered label lines). -/
def stat_card (scale y : ℤ) (tm : TextMeasure) (x cardW : ℤ) (val : String)
    (lines : List Op) : List Op :=
  let iconY := y + 12 * scale
  let ir := 14 * scale
  [Op.rrect x y (x + cardW) (y + 110 * scale) (12 * scale),
   Op.ellipse (x + cardW / 2 - ir) iconY (x + cardW / 2 + ir) (iconY + ir * 2),
   Op.text (centerIn x cardW (tm.width val (28 * scale) true)) (y + 46 * scale) val] ++
  lines

/-- The centered label line `j` of a stat tile (`label.split` loop). -/
def stat_line (scale y : ℤ) (tm : TextMeasure) (x cardW j : ℤ) (s : String) : Op :=
  Op.text (centerIn x cardW (tm.width s (11 * scale) false))
    (y + 80 * scale + j * (14 * scale)) s

/-- One rank tile of `generate_profile_screen` (card, medal circle and the
three centered texts). -/
def rank_card (scale y : ℤ) (tm : TextMeasure) (x cardW : ℤ)
    (rank ofTotal title : String) : List Op :=
  let medalR := 12 * scale
  [Op.rrect x y (x + cardW) (y + 100 * scale) (12 * scale),
   Op.ellipse (x + cardW / 2 - medalR) (y + 10 * scale) (x + cardW / 2 + medalR)
     (y + 10 * scale + medalR * 2),
   Op.text (centerIn x cardW (tm.width rank (28 * scale) true)) (y + 38 * scale) rank,
   Op.text (centerIn x cardW (tm.width ofTotal (11 * scale) false)) (y + 66 * scale) ofTotal,
   Op.text (centerIn x cardW (tm.width title (11 * scale) false)) (y + 82 * scale) title]

/-- `generate_profile_screen`, recorded as its sequence of draw calls. -/
def generate_profile_screen (w h scale : ℤ) (tm : TextMeasure) : List Op :=
  let mx := 16 * scale
  let p1 := draw_nav_bar w scale tm "" (59 * scale)
  let p2 := draw_large_title w scale "Profile" p1.2
  let y1 := p2.2 + 12 * scale
  let avatarR := 40 * scale
  let cx := w / 2
  let ih := (tm.height "JD" (32 * scale) true : ℤ)
  let y2 := y1 + avatarR * 2 + 10 * scale
  let y3 := y2 + 30 * scale
  let y4 := y3 + 24 * scale
  let bw := (tm.width "✓ Verified Courier" (12 * scale) false : ℤ) + 20 * scale
  let bh := 26 * scale
  let bx := cx - bw / 2
  let y5 := y4 + bh + 24 * scale
  let y6 := y5 + 30 * scale
  let cardW := (w - mx * 2 - 20 * scale) / 3
  let y7 := y6 + 110 * scale + 20 * scale
  let y8 := y7 + 30 * scale
  let rcardW := (w - mx * 2 - 10 * scale) / 2
  let y9 := y8 + 100 * scale + 16 * scale
  draw_status_bar w scale ++ p1.1 ++ p2.1 ++
    [Op.ellipse (cx - avatarR) y1 (cx + avatarR) (y1 + avatarR * 2),
     Op.text (centerAt cx (tm.width "JD" (32 * scale) true)) (y1 + avatarR - ih / 2) "JD",
     Op.text (centerAt cx (tm.width "Jeremy Demo" (22 * scale) true)) y2 "Jeremy Demo",
     Op.text (centerAt cx (tm.width "jeremy@worldpossible.org" (14 * scale) false)) y3
       "jeremy@worldpossible.org",
     Op.rrect bx y4 (bx + bw) (y4 + bh) (13 * scale),
     Op.text (bx + 10 * scale) (y4 + 5 * scale) "✓ Verified Courier",
     Op.text mx y5 "Your Impact"] ++
    stat_card scale y6 tm (mx + 0 * (cardW + 10 * scale)) cardW "12"
      [stat_line scale y6 tm (mx + 0 * (cardW + 10 * scale)) cardW 0 "RACHELs",
       stat_line scale y6 tm (mx + 0 * (cardW + 10 * scale)) cardW 1 "Visited"] ++
    stat_card scale y6 tm (mx + 1 * (cardW + 10 * scale)) cardW "48"
      [stat_line scale y6 tm (mx + 1 * (cardW + 10 * scale)) cardW 0 "Deliveries"] ++
    stat_card scale y6 tm (mx + 2 * (cardW + 10 * scale)) cardW "31"
      [stat_line scale y6 tm (mx + 2 * (cardW + 10 * scale)) cardW 0 "Pickups"] ++
    [Op.text mx y7 "Community Ranking"] ++
    rank_card scale y8 tm (mx + 0 * (rcardW + 10 * scale)) rcardW "#3" "of 156"
      "Devices Rank" ++
    rank_card scale y8 tm (mx + 1 * (rcardW + 10 * scale)) rcardW "#7" "of 156"
      "Deliveries Rank" ++
    [Op.rrect mx y9 (w - mx) (y9 + 44 * scale) (10 * scale),
     Op.text (mx + 14 * scale) (y9 + 14 * scale)
       "👥  Part of 156 active couriers worldwide"] ++
    draw_tab_bar w h scale tm

/-- One bundle row of `generate_bundles_screen`. -/
def bundle_row (w scale y : ℤ) (tm : TextMeasure)
    (title desc category size : String) : List Op :=
  let mx := 16 * scale
  let rowH := 80 * scale
  let iconSize := 50 * scale
  let iconY := y + (rowH - iconSize) / 2
  let cr := 10 * scale
  let tx := mx + iconSize + 12 * scale
  let badgeW := (tm.width category (10 * scale) false : ℤ) + 10 * scale
  let badgeY := y + 50 * scale
  let checkR := 15 * scale
  let checkX := w - mx - checkR * 2
  let checkY := y + (rowH - checkR * 2) / 2
  [Op.rect 0 y w (y + rowH),
   Op.line mx (y + rowH) w (y + rowH),
   Op.rrect mx iconY (mx + iconSize) (iconY + iconSize) (8 * scale),
   Op.ellipse (mx + iconSize / 2 - cr) (iconY + iconSize / 2 - cr)
     (mx + iconSize / 2 + cr) (iconY + iconSize / 2 + cr),
   Op.text tx (y + 12 * scale) title,
   Op.text tx (y + 32 * scale) desc,
   Op.rrect tx badgeY (tx + badgeW) (badgeY + 18 * scale) (4 * scale),
   Op.text (tx + 5 * scale) (badgeY + 3 * scale) category,
   Op.text (tx + badgeW + 8 * scale) (badgeY + 3 * scale) size,
   Op.ellipse checkX checkY (checkX + checkR * 2) (checkY + checkR * 2)]

/-- `generate_bundles_screen`, recorded as its sequence of draw calls (no
tab bar on this screen; the download state only selects fill or outline for
the last circle and is not recorded). -/
def generate_bundles_screen (w h scale : ℤ) (tm : TextMeasure) : List Op :=
  let safeTop := 59 * scale
  let mx := 16 * scale
  let navH := 44 * scale
  let y0 := safeTop + navH
  let searchY := y0 + 8 * scale
  let searchH := 36 * scale
  let y1 := searchY + searchH + 12 * scale
  let y2 := y1 + 24 * scale
  draw_status_bar w scale ++
    [Op.rect 0 safeTop w (safeTop + navH),
     Op.text (centerIn 0 w (tm.width "Content Bundles" (17 * scale) true))
       (safeTop + 12 * scale) "Content Bundles",
     Op.text (16 * scale) (safeTop + 12 * scale) "Close",
     Op.rrect mx searchY (w - mx) (searchY + searchH) (10 * scale),
     Op.text (mx + 32 * scale) (searchY + 8 * scale) "Search bundles",
     Op.text (mx + 4 * scale) y1 "5 BUNDLES AVAILABLE"] ++
    bundle_row w scale y2 tm "Wikipedia for Schools"
      "Educational articles from Wikipedia" "Encyclopedia" "5.5 GB" ++
    bundle_row w scale (y2 + 80 * scale) tm "Khan Academy Lite"
      "Math and science video lessons" "Education" "3.2 GB" ++
    bundle_row w scale (y2 + 160 * scale) tm "OpenStax Textbooks"
      "Free college textbooks" "Textbooks" "1.8 GB" ++
    bundle_row w scale (y2 + 240 * scale) tm "MedLine Medical"
      "Medical reference materials" "Health" "800 MB" ++
    bundle_row w scale (y2 + 320 * scale) tm "CK-12 Flexbooks"
      "Interactive textbooks for K-12" "Education" "2.1 GB"

/-! ## Font loading: `get_font` -/

/-- The environment `get_font` probes: which paths exist on the filesystem
(`os.path.exists`) and whether `ImageFont.truetype` succeeds on a path at a
given size (it may raise even for an existing file). -/
structure FontEnv where
  pathOk : String → Bool
  loadOk : String → ℤ → Bool

/-- The value returned by `get_font`: a loaded truetype font or the
library default bitmap font (`ImageFont.load_default()`). -/
inductive Font where
  | truetype (path : String) (size : ℤ)
  | fallback

/-- The hardcoded candidate list `font_paths` of `get_font`. -/
def font_paths : List String :=
  ["C:/Windows/Fonts/segoeui.ttf", "C:/Windows/Fonts/segoeuib.ttf",
   "C:/Windows/Fonts/arial.ttf", "C:/Windows/Fonts/arialbd.ttf",
   "/System/Library/Fonts/Helvetica.ttc", "/System/Library/Fonts/SFPro.ttf"]

/-- The hardcoded candidate list `bold_paths` tried first when `bold`. -/
def bold_paths : List String :=
  ["C:/Windows/Fonts/segoeuib.ttf", "C:/Windows/Fonts/arialbd.ttf"]

/-- One `for p in paths` loop of `get_font`: skip paths that do not exist,
try to load existing ones, swallow load failures and continue; `none` when
the loop falls through. -/
def try_paths (env : FontEnv) (size : ℤ) : List String → Option Font
  | [] => none
  | p :: rest =>
    if env.pathOk p then
      if env.loadOk p size then some (Font.truetype p size) else try_paths env size rest
    else try_paths env size rest

/-- `get_font`: when `bold`, first the bold candidates, then the general
candidates, then the default bitmap font.  Total by construction: every
load failure is swallowed and the default is returned. -/
def get_font (env : FontEnv) (size : ℤ) (bold : Bool) : Font :=
  if bold then
    match try_paths env size bold_paths with
    | some f => f
    | none =>
      match try_paths env size font_paths with
      | some f => f
      | none => Font.fallback
  else
    match try_paths env size font_paths with
    | some f => f
    | none => Font.fallback

/-- An environment on which no font path exists. -/
def envNoFonts : FontEnv := ⟨fun _ => false, fun _ _ => false⟩

end DataPost

namespace DataPost

/-! ## Normalizer lemmas -/

/-- The float comparison `img_ratio > target_ratio`, over exact rationals,
is the cross-multiplied integer comparison. -/
theorem ratio_gt_iff (w h : ℕ) (hh : 0 < h) :
    ((2048 : ℚ) / 2732 < (w : ℚ) / (h : ℚ)) ↔ 2048 * h < 2732 * w := by
  rw [div_lt_div_iff₀ (by norm_num) (by exact_mod_cast hh)]
  constructor
  · intro hlt
    have hq : (2048 * (h : ℚ)) < 2732 * w := by linarith
    exact_mod_cast hq
  · intro hlt
    have hq : ((2048 * h : ℕ) : ℚ) < ((2732 * w : ℕ) : ℚ) := by exact_mod_cast hlt
    push_cast at hq
    linarith

/-- Evaluation of the wider branch of `letterbox` in integer arithmetic. -/
theorem letterbox_wide (w h : ℕ) (hw : 0 < w) (hh : 0 < h)
    (hr : 2048 * h < 2732 * w) :
    (letterbox w h).newW = 2048 ∧ (letterbox w h).newH = 2048 * h / w := by
  have hcond : (2048 : ℚ) / 2732 < (w : ℚ) / (h : ℚ) := (ratio_gt_iff w h hh).2 hr
  have hq : (2048 : ℚ) / ((w : ℚ) / (h : ℚ)) = ((2048 * h : ℕ) : ℚ) / ((w : ℕ) : ℚ) := by
    rw [div_div_eq_mul_div]; push_cast; ring
  unfold letterbox
  simp only [target_size]
  push_cast
  rw [if_pos hcond]
  refine ⟨rfl, ?_⟩
  show (⌊(2048 : ℚ) / ((w : ℚ) / (h : ℚ))⌋).toNat = 2048 * h / w
  rw [hq, Int.floor_toNat, Rat.natFloor_natCast_div_natCast]

/-- Evaluation of the taller branch of `letterbox` in integer arithmetic. -/
theorem letterbox_tall (w h : ℕ) (hh : 0 < h)
    (hr : ¬ 2048 * h < 2732 * w) :
    (letterbox w h).newH = 2732 ∧ (letterbox w h).newW = 2732 * w / h := by
  have hcond : ¬ ((2048 : ℚ) / 2732 < (w : ℚ) / (h : ℚ)) := fun hc =>
    hr ((ratio_gt_iff w h hh).1 hc)
  have hq : (2732 : ℚ) * ((w : ℚ) / (h : ℚ)) = ((2732 * w : ℕ) : ℚ) / ((h : ℕ) : ℚ) := by
    rw [mul_div_assoc']; push_cast; ring_nf
  unfold letterbox
  simp only [target_size]
  push_cast
  rw [if_neg hcond]
  refine ⟨rfl, ?_⟩
  show (⌊(2732 : ℚ) * ((w : ℚ) / (h : ℚ))⌋).toNat = 2732 * w / h
  rw [hq, Int.floor_toNat, Rat.natFloor_natCast_div_natCast]

/-- The output canvas of one letterbox pass always has the target size. -/
theorem letterbox_out (w h : ℕ) :
    (letterbox w h).outW = 2048 ∧ (letterbox w h).outH = 2732 :=
  ⟨rfl, rfl⟩

/-- The paste offsets center the resized content on the target canvas. -/
theorem letterbox_paste (w h : ℕ) :
    (letterbox w h).pasteX = ((2048 : ℤ) - ((letterbox w h).newW : ℤ)) / 2 ∧
    (letterbox w h).pasteY = ((2732 : ℤ) - ((letterbox w h).newH : ℤ)) / 2 :=
  ⟨rfl, rfl⟩

/-! ## Normalizer claims -/

/-- Claim C1: for every successfully loaded source image with positive width
and height, the resize branch is selected on the exact aspect ratios: when
`w / h` strictly exceeds `2048 / 2732` the resized width is the target width
2048 and the resized height is the integer part of `new_width` divided by
the source ratio, namely `2048 * h / w`; otherwise the resized height is the
target height 2732 and the resized width is the integer part of
`new_height` times the source ratio, namely `2732 * w / h`. -/
theorem letterbox_branch_selection (w h : ℕ) (hw : 0 < w) (hh : 0 < h) :
    ((2048 : ℚ) / 2732 < (w : ℚ) / (h : ℚ) →
      (letterbox w h).newW = 2048 ∧ (letterbox w h).newH = 2048 * h / w) ∧
    (¬ (2048 : ℚ) / 2732 < (w : ℚ) / (h : ℚ) →
      (letterbox w h).newH = 2732 ∧ (letterbox w h).newW = 2732 * w / h) := by
  constructor
  · intro hcond
    exact letterbox_wide w h hw hh ((ratio_gt_iff w h hh).1 hcond)
  · intro hcond
    exact letterbox_tall w h hh (fun hc => hcond ((ratio_gt_iff w h hh).2 hc))

/-- Witness for C1 at the concrete image size 1290 x 680 (wider than the
target ratio). -/
theorem letterbox_branch_selection_witness :
    (letterbox 1290 680).newW = 2048 ∧ (letterbox 1290 680).newH = 2048 * 680 / 1290 :=
  (letterbox_branch_selection 1290 680 (by norm_num) (by norm_num)).1 (by norm_num)

/-- Claim C2: every file the normalizer processes without raising an
exception is saved at exactly the fixed target size 2048 x 2732, whatever
the source dimensions were. -/
theorem output_size_fixed (fs : FS) (name : String) (r : LetterboxResult)
    (hok : process_file fs name = .ok r) : r.outW = 2048 ∧ r.outH = 2732 := by
  unfold process_file at hok
  cases hfs : fs.read name with
  | none => simp only [hfs] at hok; exact (Except.noConfusion hok)
  | some p =>
    obtain ⟨w0, h0⟩ := p
    simp only [hfs] at hok
    by_cases hz : h0 = 0
    · rw [if_pos hz] at hok; cases hok
    · rw [if_neg hz] at hok
      cases hok
      exact letterbox_out w0 h0

/-- Witness for C2: on a filesystem where every listed file opens as a
512 x 683 image, the first file is processed successfully and its output
canvas is 2048 x 2732. -/
theorem output_size_fixed_witness :
    (letterbox 512 683).outW = 2048 ∧ (letterbox 512 683).outH = 2732 :=
  output_size_fixed fsAll "screenshot_1.png" (letterbox 512 683) rfl

/-- Claim C3: the batch loop processes every listed file: the batch always
produces one entry per listed file, each listed file contributes its own
entry, and the outcome for a file depends only on that file, so a failure
(for example a missing file) on one file leaves every other listed file
processed with its usual output. -/
theorem batch_isolation (fs fs2 : FS) (name : String) (hmem : name ∈ files)
    (hagree : fs.read name = fs2.read name) :
    (run_batch fs).length = files.length ∧
    (name, process_file fs name) ∈ run_batch fs ∧
    process_file fs name = process_file fs2 name := by
  refine ⟨by simp [run_batch], List.mem_map_of_mem _ hmem, ?_⟩
  unfold process_file
  rw [hagree]

/-- Witness for C3: with `screenshot_1.png` missing, `screenshot_2.png` is
still processed, with the same result as on a filesystem where
`screenshot_1.png` is present. -/
theorem batch_isolation_witness :
    (run_batch fsMissing).length = files.length ∧
    ("screenshot_2.png", process_file fsMissing "screenshot_2.png") ∈ run_batch fsMissing ∧
    process_file fsMissing "screenshot_2.png" = process_file fsAll "screenshot_2.png" :=
  batch_isolation fsMissing fsAll "screenshot_2.png" (by decide) (by decide)

/-- Claim C4: the resized content preserves the source aspect ratio up to
the truncation of the computed dimension: cross-multiplied, the resized
ratio `newW / newH` differs from the source ratio `w / h` by strictly less
than one truncation unit on either side, i.e.
`-h < newW * h - newH * w < w`. -/
theorem letterbox_preserves_ratio (w h : ℕ) (hw : 0 < w) (hh : 0 < h) :
    ((letterbox w h).newW : ℤ) * h - ((letterbox w h).newH : ℤ) * w < w ∧
    -(h : ℤ) < ((letterbox w h).newW : ℤ) * h - ((letterbox w h).newH : ℤ) * w := by
  rcases lt_or_ge (2048 * h) (2732 * w) with hr | hr
  · obtain ⟨e1, e2⟩ := letterbox_wide w h hw hh hr
    rw [e1, e2]
    have h1 : w * (2048 * h / w) + 2048 * h % w = 2048 * h := Nat.div_add_mod _ _
    have h2 : 2048 * h % w < w := Nat.mod_lt _ hw
    have h3 : 0 < 2048 * h % w + 1 := Nat.succ_pos _
    have hh2 : (0 : ℤ) < h := by exact_mod_cast hh
    zify at h1 h2 h3
    push_cast
    constructor
    · linarith [h1, h2]
    · linarith [h1, h2, h3, hh2]
  · obtain ⟨e1, e2⟩ := letterbox_tall w h hh (not_lt.2 hr)
    rw [e1, e2]
    have h1 : h * (2732 * w / h) + 2732 * w % h = 2732 * w := Nat.div_add_mod _ _
    have h2 : 2732 * w % h < h := Nat.mod_lt _ hh
    have h3 : 0 < 2732 * w % h + 1 := Nat.succ_pos _
    have hw2 : (0 : ℤ) < w := by exact_mod_cast hw
    zify at h1 h2 h3
    push_cast
    constructor
    · linarith [h1, h2, h3, hw2]
    · linarith [h1, h2]

/-- Witness for C4 at the concrete image size 1290 x 680. -/
theorem letterbox_preserves_ratio_witness :
    ((letterbox 1290 680).newW : ℤ) * 680 - ((letterbox 1290 680).newH : ℤ) * 1290 < 1290 ∧
    -(680 : ℤ) < ((letterbox 1290 680).newW : ℤ) * 680 - ((letterbox 1290 680).newH : ℤ) * 1290 :=
  letterbox_preserves_ratio 1290 680 (by norm_num) (by norm_num)

/-- Claim C8: a source image whose aspect ratio equals the target ratio
exactly is resized to the full target canvas with zero padding: both
resized dimensions equal the target dimensions and both paste offsets are
zero. -/
theorem exact_ratio_zero_padding (w h : ℕ) (hh : 0 < h)
    (hr : (w : ℚ) / (h : ℚ) = 2048 / 2732) :
    (letterbox w h).newW = 2048 ∧ (letterbox w h).newH = 2732 ∧
    (letterbox w h).pasteX = 0 ∧ (letterbox w h).pasteY = 0 := by
  have hcross : w * 2732 = 2048 * h := by
    have hq : (w : ℚ) * 2732 = 2048 * h :=
      (div_eq_div_iff (by exact_mod_cast hh.ne') (by norm_num)).1 hr
    exact_mod_cast hq
  have hnot : ¬ 2048 * h < 2732 * w := by omega
  obtain ⟨e1, e2⟩ := letterbox_tall w h hh hnot
  have enw : (letterbox w h).newW = 2048 := by
    rw [e2]
    have : 2732 * w = 2048 * h := by omega
    rw [this, Nat.mul_div_cancel _ hh]
  obtain ⟨p1, p2⟩ := letterbox_paste w h
  refine ⟨enw, e1, ?_, ?_⟩
  · rw [p1, enw]; rfl
  · rw [p2, e1]; rfl

/-- Witness for C8 at the exact target size 2048 x 2732. -/
theorem exact_ratio_zero_padding_witness :
    (letterbox 2048 2732).newW = 2048 ∧ (letterbox 2048 2732).newH = 2732 ∧
    (letterbox 2048 2732).pasteX = 0 ∧ (letterbox 2048 2732).pasteY = 0 :=
  exact_ratio_zero_padding 2048 2732 (by norm_num) (by norm_num)

/-- Claim C10: the resized dimensions never exceed the target canvas, both
centering paste offsets are nonnegative, and the pasted content lies
entirely inside the 2048 x 2732 canvas. -/
theorem letterbox_within_canvas (w h : ℕ) (hw : 0 < w) (hh : 0 < h) :
    (letterbox w h).newW ≤ 2048 ∧ (letterbox w h).newH ≤ 2732 ∧
    0 ≤ (letterbox w h).pasteX ∧ 0 ≤ (letterbox w h).pasteY ∧
    (letterbox w h).pasteX + ((letterbox w h).newW : ℤ) ≤ 2048 ∧
    (letterbox w h).pasteY + ((letterbox w h).newH : ℤ) ≤ 2732 := by
  obtain ⟨p1, p2⟩ := letterbox_paste w h
  have hWH : (letterbox w h).newW ≤ 2048 ∧ (letterbox w h).newH ≤ 2732 := by
    rcases lt_or_ge (2048 * h) (2732 * w) with hr | hr
    · obtain ⟨e1, e2⟩ := letterbox_wide w h hw hh hr
      refine ⟨le_of_eq e1, ?_⟩
      rw [e2]
      calc 2048 * h / w ≤ 2732 * w / w := Nat.div_le_div_right (le_of_lt hr)
        _ = 2732 := Nat.mul_div_cancel _ hw
    · obtain ⟨e1, e2⟩ := letterbox_tall w h hh (not_lt.2 hr)
      refine ⟨?_, le_of_eq e1⟩
      rw [e2]
      calc 2732 * w / h ≤ 2048 * h / h := Nat.div_le_div_right hr
        _ = 2048 := Nat.mul_div_cancel _ hh
  obtain ⟨hW, hH⟩ := hWH
  refine ⟨hW, hH, ?_, ?_, ?_, ?_⟩
  · rw [p1]; omega
  · rw [p2]; omega
  · rw [p1]; omega
  · rw [p2]; omega

/-- Witness for C10 at the concrete image size 1290 x 680. -/
theorem letterbox_within_canvas_witness :
    (letterbox 1290 680).newW ≤ 2048 ∧ (letterbox 1290 680).newH ≤ 2732 ∧
    0 ≤ (letterbox 1290 680).pasteX ∧ 0 ≤ (letterbox 1290 680).pasteY ∧
    (letterbox 1290 680).pasteX + ((letterbox 1290 680).newW : ℤ) ≤ 2048 ∧
    (letterbox 1290 680).pasteY + ((letterbox 1290 680).newH : ℤ) ≤ 2732 :=
  letterbox_within_canvas 1290 680 (by norm_num) (by norm_num)

/-! ## Renderer lemmas -/

theorem ops_bounded_nil (W H : ℤ) : ops_bounded W H [] ↔ True := by
  simp [ops_bounded]

theorem ops_bounded_cons (W H : ℤ) (a : Op) (L : List Op) :
    ops_bounded W H (a :: L) ↔ opInBounds W H a ∧ ops_bounded W H L := by
  simp [ops_bounded, List.forall_mem_cons]

theorem ops_bounded_append (W H : ℤ) (A B : List Op) :
    ops_bounded W H (A ++ B) ↔ ops_bounded W H A ∧ ops_bounded W H B := by
  simp [ops_bounded, List.mem_append, or_imp, forall_and]

theorem draw_nav_bar_snd (w scale : ℤ) (tm : TextMeasure) (t : String) (y0 : ℤ) :
    (draw_nav_bar w scale tm t y0).2 = y0 + 44 * scale := rfl

theorem draw_large_title_snd (w scale : ℤ) (t : String) (y0 : ℤ) :
    (draw_large_title w scale t y0).2 = y0 + 52 * scale := rfl

theorem draw_connection_card_snd (w scale y : ℤ) (c : Bool) :
    (draw_connection_card w scale y c).2 = y + 80 * scale + 16 * scale := rfl

theorem draw_transfer_card_snd (w scale y : ℤ) (label : String) (count : ℕ)
    (a : Bool) (p : ℚ) :
    (draw_transfer_card w scale y label count a p).2 = y + 70 * scale + 10 * scale := rfl

theorem draw_action_buttons_snd (w scale : ℤ) (tm : TextMeasure) (y : ℤ) :
    (draw_action_buttons w scale tm y).2 =
      y + 50 * scale + 10 * scale + 50 * scale + 16 * scale := rfl

theorem draw_form_row_snd (w scale y : ℤ) (tm : TextMeasure) (label : String)
    (v : Option String) (t tOn : Bool) :
    (draw_form_row w scale y tm label v t tOn).2 = y + 44 * scale := rfl

theorem draw_form_section_header_snd (w scale y : ℤ) (t : String) :
    (draw_form_section_header w scale y t).2 = y + 32 * scale := rfl

/-- Python `int(x)` agrees with the floor on nonnegative arguments. -/
theorem pyInt_eq_floor (q : ℚ) (hq : 0 ≤ q) : pyInt q = ⌊q⌋ := by
  unfold pyInt
  rw [Int.tdiv_eq_ediv (Rat.num_nonneg.2 hq) (Int.natCast_nonneg _), Rat.floor_def]

/-- `int(n * p)` stays below `n` for a fraction `p` of a nonnegative `n`. -/
theorem pyInt_mul_le (n : ℤ) (p : ℚ) (hn : 0 ≤ n) (hp : 0 ≤ p) (hp1 : p ≤ 1) :
    pyInt ((n : ℚ) * p) ≤ n := by
  have hq : (0 : ℚ) ≤ (n : ℚ) * p := mul_nonneg (by exact_mod_cast hn) hp
  rw [pyInt_eq_floor _ hq]
  have key : (0 : ℚ) ≤ (n : ℚ) * (1 - p) :=
    mul_nonneg (by exact_mod_cast hn) (sub_nonneg.2 hp1)
  have hle : (n : ℚ) * p ≤ (n : ℚ) := by nlinarith [key]
  calc ⌊(n : ℚ) * p⌋ ≤ ⌊(n : ℚ)⌋ := Int.floor_le_floor hle
    _ = n := Int.floor_intCast n

/-! ## Renderer claims -/

/-- Claim C7: for every centered label of the renderer, the left margin
(text x minus container left edge) and the right margin (container right
edge minus text x minus measured text width) differ by at most one pixel.
This covers both centering expressions of the source: `(span - tw) // 2`
relative to a container (`centerIn`: navigation titles via `draw_nav_bar`,
the three button labels of `draw_action_buttons`, stat and rank tile
texts), and `cx - tw // 2` on a container midpoint (`centerAt`: tab bar
labels via `tab_ops`, the profile header texts). -/
theorem centered_label_margins :
    (∀ base span tw : ℤ,
      |(centerIn base span tw - base) -
        (base + span - (centerIn base span tw + tw))| ≤ 1) ∧
    (∀ base span tw : ℤ,
      |(centerAt (base + span / 2) tw - base) -
        (base + span - (centerAt (base + span / 2) tw + tw))| ≤ 1) := by
  constructor <;> intro base span tw <;> rw [abs_le] <;>
    simp only [centerIn, centerAt] <;> omega

/-- Counterexample to claim C5: the second tab's icon circle is drawn by
`draw_tab_bar` at x offset 609 on the iPhone profile (canvas 1290, scale 3)
and at x offset 999 on the iPad profile (canvas 2048, scale 2), and no
single constant `c` satisfies `609 = int(c * 3)` and `999 = int(c * 2)`:
the offset is derived from `tab_w = w // 3`, not from a literal constant
times the scale factor. -/
theorem tab_offset_not_scale_times_literal :
    (Op.ellipse 609 2577 681 2649 ∈ draw_tab_bar 1290 2796 3 tmZero) ∧
    (Op.ellipse 999 2586 1047 2634 ∈ draw_tab_bar 2048 2732 2 tmZero) ∧
    ¬ ∃ c : ℚ, (609 : ℤ) = ⌊c * 3⌋ ∧ (999 : ℤ) = ⌊c * 2⌋ := by
  refine ⟨by decide, by decide, ?_⟩
  rintro ⟨c, h1, h2⟩
  have f2 : (999 : ℚ) ≤ c * 2 := by exact_mod_cast Int.le_floor.1 (le_of_eq h2)
  have f3 : c * 3 < (609 : ℚ) + 1 := by
    have hlt := Int.lt_floor_add_one (c * 3)
    rw [← h1] at hlt
    exact_mod_cast hlt
  linarith

/-- Amended claim C5: offsets and sizes that the source writes directly as
`int(constant * scale)` do scale with the scale factor — for example the
tab bar occupies exactly the bottom `83 * scale` rows, and a form-row
toggle has width `51 * scale` and sits `16 * scale` from the right canvas
edge — but coordinates derived from the canvas width (the tab width
`w // 3` and the positions built from it, centered and right-anchored
elements) depend on the canvas dimensions, which are not proportional to
the scale factor across the two supported profiles. -/
theorem scaled_offsets_amended :
    (∀ w h scale : ℤ, ∀ tm : TextMeasure,
      Op.rect 0 (h - 83 * scale) w h ∈ draw_tab_bar w h scale tm) ∧
    (∀ w : ℤ, 3 * tab_w w ≤ w ∧ w < 3 * tab_w w + 3) ∧
    (∀ w scale y : ℤ, ∀ tm : TextMeasure, ∀ label : String, ∃ x0 x1 : ℤ,
      Op.rrect x0 (y + 8 * scale) x1 (y + 8 * scale + 31 * scale) (15 * scale) ∈
        (draw_form_row w scale y tm label none true true).1 ∧
      w - x1 = 16 * scale ∧ x1 - x0 = 51 * scale) := by
  refine ⟨?_, ?_, ?_⟩
  · intro w h scale tm
    simp [draw_tab_bar]
  · intro w
    unfold tab_w
    omega
  · intro w scale y tm label
    refine ⟨w - 16 * scale - 51 * scale, w - 16 * scale - 51 * scale + 51 * scale,
      ?_, by ring, by ring⟩
    simp [draw_form_row]

/-- Claim C9: `get_font` never raises: whenever every hardcoded candidate
path either does not exist or fails to load, it returns the library
default bitmap font instead of propagating an error (the embedding is a
total function by construction, so no exception can escape). -/
theorem get_font_never_raises (env : FontEnv) (size : ℤ) (bold : Bool)
    (hfail : ∀ p, env.pathOk p = true → env.loadOk p size = false) :
    get_font env size bold = Font.fallback := by
  have hnone : ∀ ps : List String, try_paths env size ps = none := by
    intro ps
    induction ps with
    | nil => rfl
    | cons p rest ih =>
      unfold try_paths
      by_cases hp : env.pathOk p = true
      · simp [hp, hfail p hp, ih]
      · simp [hp, ih]
  unfold get_font
  cases bold <;> simp [hnone bold_paths, hnone font_paths]

/-- Witness for C9: on an environment with no font files at all (every
exists-check is false), `get_font` returns the default bitmap font. -/
theorem get_font_never_raises_witness :
    get_font envNoFonts 42 true = Font.fallback :=
  get_font_never_raises envNoFonts 42 true (fun p hp => by simp [envNoFonts] at hp)

theorem settings_bounds_iphone (tm : TextMeasure) :
    ops_bounded 1290 2796 (generate_settings_screen 1290 2796 3 tm) := by
  simp only [generate_settings_screen, draw_status_bar, draw_nav_bar, draw_large_title,
    draw_form_section_header, draw_form_row, draw_tab_bar, tab_ops,
    draw_nav_bar_snd, draw_large_title_snd, draw_form_row_snd,
    draw_form_section_header_snd, ops_bounded_append, ops_bounded_cons,
    ops_bounded_nil, opInBounds, centerIn, centerAt, tab_w, if_true, if_false,
    Bool.false_eq_true, and_true]
  omega

theorem settings_bounds_ipad (tm : TextMeasure) :
    ops_bounded 2048 2732 (generate_settings_screen 2048 2732 2 tm) := by
  simp only [generate_settings_screen, draw_status_bar, draw_nav_bar, draw_large_title,
    draw_form_section_header, draw_form_row, draw_tab_bar, tab_ops,
    draw_nav_bar_snd, draw_large_title_snd, draw_form_row_snd,
    draw_form_section_header_snd, ops_bounded_append, ops_bounded_cons,
    ops_bounded_nil, opInBounds, centerIn, centerAt, tab_w, if_true, if_false,
    Bool.false_eq_true, and_true]
  omega

theorem profile_bounds_iphone (tm : TextMeasure)
    (htm : ∀ s k b, (tm.width s k b : ℤ) ≤ 600) :
    ops_bounded 1290 2796 (generate_profile_screen 1290 2796 3 tm) := by
  have hb := htm "✓ Verified Courier" (12 * 3) false
  simp only [generate_profile_screen, draw_status_bar, draw_nav_bar, draw_large_title,
    stat_card, stat_line, rank_card, draw_tab_bar, tab_ops,
    draw_nav_bar_snd, draw_large_title_snd, ops_bounded_append, ops_bounded_cons,
    ops_bounded_nil, opInBounds, centerIn, centerAt, tab_w, if_true, if_false,
    Bool.false_eq_true, and_true]
  omega

theorem profile_bounds_ipad (tm : TextMeasure)
    (htm : ∀ s k b, (tm.width s k b : ℤ) ≤ 600) :
    ops_bounded 2048 2732 (generate_profile_screen 2048 2732 2 tm) := by
  have hb := htm "✓ Verified Courier" (12 * 2) false
  simp only [generate_profile_screen, draw_status_bar, draw_nav_bar, draw_large_title,
    stat_card, stat_line, rank_card, draw_tab_bar, tab_ops,
    draw_nav_bar_snd, draw_large_title_snd, ops_bounded_append, ops_bounded_cons,
    ops_bounded_nil, opInBounds, centerIn, centerAt, tab_w, if_true, if_false,
    Bool.false_eq_true, and_true]
  omega

theorem bundles_bounds_iphone (tm : TextMeasure)
    (htm : ∀ s k b, (tm.width s k b : ℤ) ≤ 600) :
    ops_bounded 1290 2796 (generate_bundles_screen 1290 2796 3 tm) := by
  have h1 := htm "Encyclopedia" (10 * 3) false
  have h2 := htm "Education" (10 * 3) false
  have h3 := htm "Textbooks" (10 * 3) false
  have h4 := htm "Health" (10 * 3) false
  simp only [generate_bundles_screen, draw_status_bar, bundle_row,
    ops_bounded_append, ops_bounded_cons, ops_bounded_nil, opInBounds,
    centerIn, centerAt, if_true, if_false, Bool.false_eq_true, and_true]
  omega

theorem bundles_bounds_ipad (tm : TextMeasure)
    (htm : ∀ s k b, (tm.width s k b : ℤ) ≤ 600) :
    ops_bounded 2048 2732 (generate_bundles_screen 2048 2732 2 tm) := by
  have h1 := htm "Encyclopedia" (10 * 2) false
  have h2 := htm "Education" (10 * 2) false
  have h3 := htm "Textbooks" (10 * 2) false
  have h4 := htm "Health" (10 * 2) false
  simp only [generate_bundles_screen, draw_status_bar, bundle_row,
    ops_bounded_append, ops_bounded_cons, ops_bounded_nil, opInBounds,
    centerIn, centerAt, if_true, if_false, Bool.false_eq_true, and_true]
  omega

theorem status_bounds_iphone (tm : TextMeasure) :
    ops_bounded 1290 2796 (generate_status_screen 1290 2796 3 tm) := by
  have hpy := pyInt_mul_le
    (1290 - 16 * 3 * 2 - (16 * 3 + 14 * 3 + 16 * 3 * 2 + 14 * 3 - 16 * 3) - 14 * 3)
    (13 / 20) (by norm_num) (by norm_num) (by norm_num)
  simp only [generate_status_screen, draw_status_bar, draw_nav_bar, draw_large_title,
    draw_connection_card, draw_transfer_card, draw_action_buttons, draw_tab_bar,
    tab_ops, draw_nav_bar_snd, draw_large_title_snd, draw_connection_card_snd,
    draw_transfer_card_snd, ops_bounded_append, ops_bounded_cons, ops_bounded_nil,
    opInBounds, centerIn, centerAt, tab_w, if_true, if_false, Bool.false_eq_true,
    if_pos (show (0 : ℚ) < 13 / 20 by norm_num), and_true]
  omega

theorem status_bounds_ipad (tm : TextMeasure) :
    ops_bounded 2048 2732 (generate_status_screen 2048 2732 2 tm) := by
  have hpy := pyInt_mul_le
    (2048 - 16 * 2 * 2 - (16 * 2 + 14 * 2 + 16 * 2 * 2 + 14 * 2 - 16 * 2) - 14 * 2)
    (13 / 20) (by norm_num) (by norm_num) (by norm_num)
  simp only [generate_status_screen, draw_status_bar, draw_nav_bar, draw_large_title,
    draw_connection_card, draw_transfer_card, draw_action_buttons, draw_tab_bar,
    tab_ops, draw_nav_bar_snd, draw_large_title_snd, draw_connection_card_snd,
    draw_transfer_card_snd, ops_bounded_append, ops_bounded_cons, ops_bounded_nil,
    opInBounds, centerIn, centerAt, tab_w, if_true, if_false, Bool.false_eq_true,
    if_pos (show (0 : ℚ) < 13 / 20 by norm_num), and_true]
  omega


/-- Claim C6: for every screen layout function and both supported device
profiles (1290 x 2796 at scale factor 3 and 2048 x 2732 at scale factor 2),
every coordinate passed to a drawing primitive lies within the canvas
bounds: no x coordinate exceeds the canvas width and no y coordinate
exceeds the canvas height.  The text measurement oracle is arbitrary with
measured widths at most 600 pixels: some bound is needed, because the
profile badge and the bundle category badge grow with the measured text,
and real fonts stay far below it at the sizes in use. -/
theorem layouts_within_canvas (tm : TextMeasure)
    (htm : ∀ s k b, (tm.width s k b : ℤ) ≤ 600) :
    ops_bounded 1290 2796 (generate_status_screen 1290 2796 3 tm) ∧
    ops_bounded 1290 2796 (generate_profile_screen 1290 2796 3 tm) ∧
    ops_bounded 1290 2796 (generate_settings_screen 1290 2796 3 tm) ∧
    ops_bounded 1290 2796 (generate_bundles_screen 1290 2796 3 tm) ∧
    ops_bounded 2048 2732 (generate_status_screen 2048 2732 2 tm) ∧
    ops_bounded 2048 2732 (generate_profile_screen 2048 2732 2 tm) ∧
    ops_bounded 2048 2732 (generate_settings_screen 2048 2732 2 tm) ∧
    ops_bounded 2048 2732 (generate_bundles_screen 2048 2732 2 tm) :=
  ⟨status_bounds_iphone tm, profile_bounds_iphone tm htm, settings_bounds_iphone tm,
   bundles_bounds_iphone tm htm, status_bounds_ipad tm, profile_bounds_ipad tm htm,
   settings_bounds_ipad tm, bundles_bounds_ipad tm htm⟩

/-- Witness for C6 at the zero-extent text measurement oracle. -/
theorem layouts_within_canvas_witness :
    ops_bounded 1290 2796 (generate_status_screen 1290 2796 3 tmZero) ∧
    ops_bounded 1290 2796 (generate_profile_screen 1290 2796 3 tmZero) ∧
    ops_bounded 1290 2796 (generate_settings_screen 1290 2796 3 tmZero) ∧
    ops_bounded 1290 2796 (generate_bundles_screen 1290 2796 3 tmZero) ∧
    ops_bounded 2048 2732 (generate_status_screen 2048 2732 2 tmZero) ∧
    ops_bounded 2048 2732 (generate_profile_screen 2048 2732 2 tmZero) ∧
    ops_bounded 2048 2732 (generate_settings_screen 2048 2732 2 tmZero) ∧
    ops_bounded 2048 2732 (generate_bundles_screen 2048 2732 2 tmZero) :=
  layouts_within_canvas tmZero (fun s k b => by norm_num [tmZero])

end DataPost
